import Mathlib

/-! Beacon hash entries of the channel access client (`src/ca/bhe.cpp`)

A shallow embedding of `bhe`, the per-server beacon record of the channel
access client library, and of its member functions `bhe::bhe`,
`bhe::beaconAnomalyNotify`, `bhe::updatePeriod`, `bhe::period`,
`bhe::updateTime`, `bhe::registerIIU` and `bhe::unregisterIIU`.

Conventions of the embedding.

* `unsigned` and `ca_uint32_t` values are natural numbers below `2 ^ 32`;
  every arithmetic operation the source performs on them is reduced modulo
  `2 ^ 32` explicitly.
* `double` values and `epicsTime` stamps are exact rational numbers
  (seconds); the difference of two time stamps is their rational difference.
  Rounding of binary floating point is not part of the model.
* The object `*this` is passed in and returned explicitly.  The calls made
  on the attached virtual circuit are returned as a list, in call order.
-/

namespace CA

/-- Modelled from the spec: the class `epicsTime` is declared outside the
sources at hand (`epicsTime.h`).  The spec describes the stamp as a monotonic
time or a zero sentinel meaning "no beacon yet"; a stamp is a rational number
of seconds and the default constructed `epicsTime ()` is zero. -/
abbrev epicsTime : Type := ℚ

/-- Modelled from the spec: the default constructed stamp `epicsTime ()`, the
zero sentinel. -/
def epicsTime.zero : epicsTime := 0

/-- A virtual circuit `tcpiiu` is known to a beacon entry only by its address,
which is compared and dereferenced for notification but never inspected. -/
abbrev tcpiiu : Type := Nat

/-- The base class `inetAddrID` of `bhe`: the server address, used as the hash
key and never read by the member functions embedded here. -/
abbrev inetAddrID : Type := Nat

/-- Largest finite `double` of `<float.h>`, for IEEE binary64. -/
def DBL_MAX : ℚ := (2 ^ 53 - 1) * 2 ^ 971

/-- Modelled from the spec: the constant `ca_uint32_max` is defined outside
the sources at hand (`caProto.h`).  The spec calls it `MAX`, the top of the
sequence counter's full value range; for the 32 bit `ca_uint32_t` that is
`2 ^ 32 - 1`. -/
def ca_uint32_max : Nat := 4294967295

/-- Data members of `class bhe` (declared in `bhe.h`, initialised by the
constructor in `bhe.cpp`). -/
structure bhe where
  addr : inetAddrID
  timeStamp : epicsTime
  averagePeriod : ℚ
  pIIU : Option tcpiiu
  lastBeaconNumber : Nat
deriving DecidableEq

/-- Calls a beacon entry makes on the virtual circuit it points to. -/
inductive Notification where
  | beaconAnomalyNotify (iiu : tcpiiu)
  | beaconArrivalNotify (iiu : tcpiiu)
deriving DecidableEq

/-- What one call of `bhe::updatePeriod` leaves behind: the object after the
call, the returned `bool`, how many times `this->beaconAnomalyNotify ()` was
invoked, and the calls that reached the attached circuit. -/
structure UpdateResult where
  entry : bhe
  netChange : Bool
  anomalyCalls : Nat
  delivered : List Notification
deriving DecidableEq

/-- The constructor `bhe::bhe ( initialTimeStamp, initialBeaconNumber, addr )`. -/
def bhe.mk0 (initialTimeStamp : epicsTime) (initialBeaconNumber : Nat)
    (addr : inetAddrID) : bhe :=
  { addr := addr
    timeStamp := initialTimeStamp
    averagePeriod := - DBL_MAX
    pIIU := none
    lastBeaconNumber := initialBeaconNumber }

/-- The member `bhe::beaconAnomalyNotify ()`: forwards to the attached
circuit when there is one. -/
def bhe.beaconAnomalyNotify (self : bhe) : List Notification :=
  match self.pIIU with
  | some iiu => [Notification.beaconAnomalyNotify iiu]
  | none => []

/-- The local `beaconSeqAdvance` of `bhe::updatePeriod`, as computed from
`this->lastBeaconNumber` and `beaconNumber` in 32 bit unsigned arithmetic. -/
def beaconSeqAdvance (lastBeaconNumber beaconNumber : Nat) : Nat :=
  if beaconNumber > lastBeaconNumber then
    (beaconNumber + 2 ^ 32 - lastBeaconNumber) % 2 ^ 32
  else
    ((ca_uint32_max + 2 ^ 32 - lastBeaconNumber) % 2 ^ 32 + beaconNumber) % 2 ^ 32

/-- The member `bhe::updatePeriod`.  The macro `CA_V410` of `caProto.h`, which
tells whether a protocol revision carries beacon sequence numbers, is a
parameter. -/
def bhe.updatePeriod (CA_V410 : Nat → Bool) (self : bhe)
    (programBeginTime currentTime : epicsTime) (beaconNumber : Nat)
    (protocolRevision : Nat) : UpdateResult :=
  if self.timeStamp = epicsTime.zero then
    let self1 : bhe :=
      if CA_V410 protocolRevision then
        { self with lastBeaconNumber := beaconNumber }
      else self
    { entry := { self1 with timeStamp := currentTime }
      netChange := false
      anomalyCalls := 1
      delivered := self1.beaconAnomalyNotify }
  else
    let beaconSeqAdvance : Nat := CA.beaconSeqAdvance self.lastBeaconNumber beaconNumber
    let self1 : bhe :=
      if CA_V410 protocolRevision then
        { self with lastBeaconNumber := beaconNumber }
      else self
    if CA_V410 protocolRevision = true ∧
        (beaconSeqAdvance = 0 ∨ beaconSeqAdvance > ca_uint32_max - 256) then
      { entry := self1, netChange := false, anomalyCalls := 0, delivered := [] }
    else if CA_V410 protocolRevision = true ∧
        (beaconSeqAdvance > 1 ∧ beaconSeqAdvance < 4) then
      { entry := self1, netChange := false, anomalyCalls := 0, delivered := [] }
    else
      let currentPeriod : ℚ := currentTime - self1.timeStamp
      if self1.averagePeriod < 0.0 then
        let totalRunningTime : ℚ := self1.timeStamp - programBeginTime
        { entry := { self1 with averagePeriod := currentPeriod, timeStamp := currentTime }
          netChange := decide (currentPeriod ≤ totalRunningTime)
          anomalyCalls := 1
          delivered := self1.beaconAnomalyNotify }
      else
        let self2 : bhe :=
          { self1 with
            averagePeriod := currentPeriod * 0.125 + self1.averagePeriod * 0.875
            timeStamp := currentTime }
        if currentPeriod ≥ self1.averagePeriod * 1.25 then
          { entry := self2
            netChange := decide (currentPeriod ≥ self1.averagePeriod * 3.25)
            anomalyCalls := 1
            delivered := self1.beaconAnomalyNotify }
        else if currentPeriod ≤ self1.averagePeriod * 0.80 then
          { entry := self2
            netChange := true
            anomalyCalls := 1
            delivered := self1.beaconAnomalyNotify }
        else
          { entry := self2
            netChange := false
            anomalyCalls := 0
            delivered :=
              match self1.pIIU with
              | some iiu => [Notification.beaconArrivalNotify iiu]
              | none => [] }

/-- The member `bhe::period ()`. -/
def bhe.period (self : bhe) : ℚ := self.averagePeriod

/-- The member `bhe::updateTime ()`. -/
def bhe.updateTime (self : bhe) : epicsTime := self.timeStamp

/-- The member `bhe::registerIIU ( iiu, currentTime )`. -/
def bhe.registerIIU (self : bhe) (iiu : tcpiiu) (currentTime : epicsTime) : bhe :=
  { self with pIIU := some iiu, timeStamp := currentTime, averagePeriod := - DBL_MAX }

/-- The member `bhe::unregisterIIU ( iiu )`. -/
def bhe.unregisterIIU (self : bhe) (iiu : tcpiiu) : bhe :=
  if self.pIIU = some iiu then
    { self with pIIU := none, timeStamp := epicsTime.zero, averagePeriod := - DBL_MAX }
  else self

/-- Modelled from the spec: the macro `CA_V410` is defined outside the sources
at hand (`caProto.h`); the spec only says that some protocol revisions are
sequence-capable.  This instance, minor revision 10 or later, is used where a
concrete revision has to be evaluated; the general statements hold for every
such test. -/
def CA_V410 (minor : Nat) : Bool := decide (minor ≥ 10)

/-- The sequence number tests of `bhe::updatePeriod` (the two early returns
inside `if ( CA_V410 ( protocolRevision ) )`) throw the beacon away. -/
def bhe.discardsBeacon (CA_V410 : Nat → Bool) (self : bhe) (beaconNumber : Nat)
    (protocolRevision : Nat) : Prop :=
  CA_V410 protocolRevision = true ∧
    (beaconSeqAdvance self.lastBeaconNumber beaconNumber = 0 ∨
      beaconSeqAdvance self.lastBeaconNumber beaconNumber > ca_uint32_max - 256 ∨
      (beaconSeqAdvance self.lastBeaconNumber beaconNumber > 1 ∧
        beaconSeqAdvance self.lastBeaconNumber beaconNumber < 4))

instance (CA_V410 : Nat → Bool) (self : bhe) (beaconNumber protocolRevision : Nat) :
    Decidable (self.discardsBeacon CA_V410 beaconNumber protocolRevision) := by
  unfold bhe.discardsBeacon
  infer_instance

/-- The entry after a stream of beacons from one server has been handed to
`bhe::updatePeriod`, one call per beacon: beacon `k` (counted from 1) arrives
at `arrival k` and carries the number `number k`; the value is the entry after
the first `n` of them. -/
def bhe.afterBeacons (CA_V410 : Nat → Bool) (programBeginTime : epicsTime)
    (protocolRevision : Nat) (arrival : Nat → epicsTime) (number : Nat → Nat)
    (self : bhe) : Nat → bhe
  | 0 => self
  | k + 1 =>
    ((bhe.afterBeacons CA_V410 programBeginTime protocolRevision arrival number self
        k).updatePeriod CA_V410 programBeginTime (arrival (k + 1)) (number (k + 1))
      protocolRevision).entry

/-- One call of a mutating member function of `bhe` together with its
arguments. -/
inductive Call where
  | updatePeriod (programBeginTime currentTime : epicsTime)
      (beaconNumber protocolRevision : Nat)
  | registerIIU (iiu : tcpiiu) (currentTime : epicsTime)
  | unregisterIIU (iiu : tcpiiu)
deriving DecidableEq

/-- The entry after one call. -/
def bhe.call (CA_V410 : Nat → Bool) (self : bhe) : Call → bhe
  | Call.updatePeriod programBeginTime currentTime beaconNumber protocolRevision =>
    (self.updatePeriod CA_V410 programBeginTime currentTime beaconNumber
      protocolRevision).entry
  | Call.registerIIU iiu currentTime => self.registerIIU iiu currentTime
  | Call.unregisterIIU iiu => self.unregisterIIU iiu

/-- The entry after a sequence of calls, made in list order. -/
def bhe.calls (CA_V410 : Nat → Bool) (self : bhe) : List Call → bhe
  | [] => self
  | c :: rest => bhe.calls CA_V410 (self.call CA_V410 c) rest

/-- Every `updatePeriod` call of the sequence carries an arrival time that is
strictly later than the `timeStamp` the entry holds when the call is made. -/
def bhe.beaconsArriveLater (CA_V410 : Nat → Bool) (self : bhe) : List Call → Bool
  | [] => true
  | c :: rest =>
    (match c with
      | Call.updatePeriod _ currentTime _ _ => decide (self.timeStamp < currentTime)
      | _ => true) &&
    bhe.beaconsArriveLater CA_V410 (self.call CA_V410 c) rest

/-! ## General facts about `bhe::updatePeriod` -/

theorem DBL_MAX_pos : (0 : ℚ) < DBL_MAX := by
  unfold DBL_MAX
  positivity

/-- A discarded beacon only stores its number. -/
theorem updatePeriod_of_discard (CA_V410 : Nat → Bool) (self : bhe)
    (programBeginTime currentTime : epicsTime) (beaconNumber protocolRevision : Nat)
    (hts : self.timeStamp ≠ epicsTime.zero)
    (hd : self.discardsBeacon CA_V410 beaconNumber protocolRevision) :
    self.updatePeriod CA_V410 programBeginTime currentTime beaconNumber protocolRevision =
      { entry := { self with lastBeaconNumber := beaconNumber }
        netChange := false
        anomalyCalls := 0
        delivered := [] } := by
  obtain ⟨hv, hadv⟩ := hd
  unfold bhe.updatePeriod
  rw [if_neg hts]
  simp only [hv, if_true, true_and]
  rcases hadv with h | h | h
  · rw [if_pos (Or.inl h)]
  · rw [if_pos (Or.inr h)]
  · by_cases h' : beaconSeqAdvance self.lastBeaconNumber beaconNumber = 0 ∨
        beaconSeqAdvance self.lastBeaconNumber beaconNumber > ca_uint32_max - 256
    · rw [if_pos h']
    · rw [if_neg h', if_pos h]

/-- A beacon met while `timeStamp` is the zero sentinel only stores its
arrival time and, on a sequence-capable revision, its number. -/
theorem updatePeriod_of_zero_timeStamp (CA_V410 : Nat → Bool) (self : bhe)
    (programBeginTime currentTime : epicsTime) (beaconNumber protocolRevision : Nat)
    (hts : self.timeStamp = epicsTime.zero) :
    self.updatePeriod CA_V410 programBeginTime currentTime beaconNumber protocolRevision =
      { entry :=
          { self with
            lastBeaconNumber :=
              if CA_V410 protocolRevision then beaconNumber else self.lastBeaconNumber
            timeStamp := currentTime }
        netChange := false
        anomalyCalls := 1
        delivered := self.beaconAnomalyNotify } := by
  unfold bhe.updatePeriod
  rw [if_pos hts]
  cases hv : CA_V410 protocolRevision <;> simp [bhe.beaconAnomalyNotify]

/-- A beacon that is neither a first sighting nor discarded, met while
`averagePeriod` is negative: the "2nd beacon seen" branch. -/
theorem updatePeriod_of_pass_second (CA_V410 : Nat → Bool) (self : bhe)
    (programBeginTime currentTime : epicsTime) (beaconNumber protocolRevision : Nat)
    (hts : self.timeStamp ≠ epicsTime.zero)
    (hd : ¬ self.discardsBeacon CA_V410 beaconNumber protocolRevision)
    (hav : self.averagePeriod < 0) :
    self.updatePeriod CA_V410 programBeginTime currentTime beaconNumber protocolRevision =
      { entry :=
          { self with
            lastBeaconNumber :=
              if CA_V410 protocolRevision then beaconNumber else self.lastBeaconNumber
            averagePeriod := currentTime - self.timeStamp
            timeStamp := currentTime }
        netChange :=
          decide (currentTime - self.timeStamp ≤ self.timeStamp - programBeginTime)
        anomalyCalls := 1
        delivered := self.beaconAnomalyNotify } := by
  unfold bhe.discardsBeacon at hd
  unfold bhe.updatePeriod
  rw [if_neg hts]
  by_cases hv : CA_V410 protocolRevision = true
  · have h1 : ¬ (beaconSeqAdvance self.lastBeaconNumber beaconNumber = 0 ∨
        beaconSeqAdvance self.lastBeaconNumber beaconNumber > ca_uint32_max - 256) :=
      fun h => hd ⟨hv, h.elim Or.inl (fun h' => Or.inr (Or.inl h'))⟩
    have h2 : ¬ (beaconSeqAdvance self.lastBeaconNumber beaconNumber > 1 ∧
        beaconSeqAdvance self.lastBeaconNumber beaconNumber < 4) :=
      fun h => hd ⟨hv, Or.inr (Or.inr h)⟩
    have hav' : self.averagePeriod < (0.0 : ℚ) := by norm_num; exact hav
    simp only [hv, if_true, true_and, if_neg h1, if_neg h2, if_pos hav',
      bhe.beaconAnomalyNotify]
  · have hav' : self.averagePeriod < (0.0 : ℚ) := by norm_num; exact hav
    simp only [hv, if_false, false_and, if_pos hav', bhe.beaconAnomalyNotify,
      Bool.false_eq_true]

/-- A beacon that is neither a first sighting nor discarded, met while
`averagePeriod` is not negative: the running average branch. -/
theorem updatePeriod_of_pass_steady (CA_V410 : Nat → Bool) (self : bhe)
    (programBeginTime currentTime : epicsTime) (beaconNumber protocolRevision : Nat)
    (hts : self.timeStamp ≠ epicsTime.zero)
    (hd : ¬ self.discardsBeacon CA_V410 beaconNumber protocolRevision)
    (hav : 0 ≤ self.averagePeriod) :
    self.updatePeriod CA_V410 programBeginTime currentTime beaconNumber protocolRevision =
      { entry :=
          { self with
            lastBeaconNumber :=
              if CA_V410 protocolRevision then beaconNumber else self.lastBeaconNumber
            averagePeriod :=
              (currentTime - self.timeStamp) * 0.125 + self.averagePeriod * 0.875
            timeStamp := currentTime }
        netChange :=
          if currentTime - self.timeStamp ≥ self.averagePeriod * 1.25 then
            decide (currentTime - self.timeStamp ≥ self.averagePeriod * 3.25)
          else decide (currentTime - self.timeStamp ≤ self.averagePeriod * 0.80)
        anomalyCalls :=
          if currentTime - self.timeStamp ≥ self.averagePeriod * 1.25 ∨
              currentTime - self.timeStamp ≤ self.averagePeriod * 0.80 then 1 else 0
        delivered :=
          if currentTime - self.timeStamp ≥ self.averagePeriod * 1.25 ∨
              currentTime - self.timeStamp ≤ self.averagePeriod * 0.80 then
            self.beaconAnomalyNotify
          else
            match self.pIIU with
            | some iiu => [Notification.beaconArrivalNotify iiu]
            | none => [] } := by
  unfold bhe.discardsBeacon at hd
  unfold bhe.updatePeriod
  rw [if_neg hts]
  have hav' : ¬ self.averagePeriod < (0.0 : ℚ) := by norm_num; exact hav
  by_cases hv : CA_V410 protocolRevision = true
  · have h1 : ¬ (beaconSeqAdvance self.lastBeaconNumber beaconNumber = 0 ∨
        beaconSeqAdvance self.lastBeaconNumber beaconNumber > ca_uint32_max - 256) :=
      fun h => hd ⟨hv, h.elim Or.inl (fun h' => Or.inr (Or.inl h'))⟩
    have h2 : ¬ (beaconSeqAdvance self.lastBeaconNumber beaconNumber > 1 ∧
        beaconSeqAdvance self.lastBeaconNumber beaconNumber < 4) :=
      fun h => hd ⟨hv, Or.inr (Or.inr h)⟩
    simp only [hv, if_true, true_and, if_neg h1, if_neg h2, if_neg hav',
      bhe.beaconAnomalyNotify]
    by_cases ha : currentTime - self.timeStamp ≥ self.averagePeriod * 1.25
    · simp only [ha, true_or, if_true]
    · by_cases hb : currentTime - self.timeStamp ≤ self.averagePeriod * 0.80
      · simp only [ha, hb, false_or, if_true, if_false, decide_True]
      · simp only [ha, hb, or_self, if_false, decide_False]
  · simp only [hv, if_false, false_and, if_neg hav', bhe.beaconAnomalyNotify,
      Bool.false_eq_true]
    by_cases ha : currentTime - self.timeStamp ≥ self.averagePeriod * 1.25
    · simp only [ha, true_or, if_true]
    · by_cases hb : currentTime - self.timeStamp ≤ self.averagePeriod * 0.80
      · simp only [ha, hb, false_or, if_true, if_false, decide_True]
      · simp only [ha, hb, or_self, if_false, decide_False]

/-- When the new number is larger, the computed advance is the plain
difference. -/
theorem beaconSeqAdvance_of_gt (L S : Nat) (hS : S < 2 ^ 32) (h : L < S) :
    beaconSeqAdvance L S = S - L := by
  unfold beaconSeqAdvance
  rw [if_pos h]
  norm_num at hS ⊢
  omega

/-- When the new number is not larger, the computed advance is
`ca_uint32_max` less the amount the number fell back. -/
theorem beaconSeqAdvance_of_le (L S : Nat) (hL : L < 2 ^ 32) (h : S ≤ L) :
    beaconSeqAdvance L S = ca_uint32_max - (L - S) := by
  unfold beaconSeqAdvance ca_uint32_max
  rw [if_neg (Nat.not_lt.mpr h)]
  norm_num at hL ⊢
  omega

/-! ## The sequence number filter -/

/-- C1 (evaluation of the code at the failing input).  The entry last saw
beacon number `2 ^ 32 - 1` and the next beacon carries number `0`: the modular
forward distance is `1`, yet the advance computed by the code is `0`, the
beacon is discarded, and `timeStamp` and `averagePeriod` keep their values. -/
theorem updatePeriod_wrapped_successor_discarded :
    (0 + 2 ^ 32 - 4294967295) % 2 ^ 32 = 1 ∧
    beaconSeqAdvance 4294967295 0 = 0 ∧
    bhe.updatePeriod CA_V410
        { addr := 0, timeStamp := 100, averagePeriod := 15, pIIU := none,
          lastBeaconNumber := 4294967295 } 0 115 0 13 =
      { entry :=
          { addr := 0, timeStamp := 100, averagePeriod := 15, pIIU := none,
            lastBeaconNumber := 0 }
        netChange := false
        anomalyCalls := 0
        delivered := [] } := by
  refine ⟨by norm_num, by decide, ?_⟩
  rw [updatePeriod_of_discard]
  · norm_num [epicsTime.zero]
  · exact ⟨by decide, Or.inl (by decide)⟩

/-- C2 (counterexample).  The entry last saw beacon number `5`; a beacon with
number `7`, forward distance `2`, is discarded, but the entry is not left as it
was: `lastBeaconNumber` has become `7`. -/
theorem updatePeriod_distance_two_changes_entry :
    (100 : epicsTime) ≠ epicsTime.zero ∧ CA_V410 13 = true ∧
    (7 + 2 ^ 32 - 5) % 2 ^ 32 = 2 ∧
    (bhe.updatePeriod CA_V410
        { addr := 0, timeStamp := 100, averagePeriod := 15, pIIU := some 1,
          lastBeaconNumber := 5 } 0 115 7 13).netChange = false ∧
    (bhe.updatePeriod CA_V410
        { addr := 0, timeStamp := 100, averagePeriod := 15, pIIU := some 1,
          lastBeaconNumber := 5 } 0 115 7 13).entry.lastBeaconNumber = 7 ∧
    (bhe.updatePeriod CA_V410
        { addr := 0, timeStamp := 100, averagePeriod := 15, pIIU := some 1,
          lastBeaconNumber := 5 } 0 115 7 13).entry ≠
      { addr := 0, timeStamp := 100, averagePeriod := 15, pIIU := some 1,
        lastBeaconNumber := 5 } := by
  have hts : (100 : epicsTime) ≠ epicsTime.zero := by norm_num [epicsTime.zero]
  refine ⟨hts, by decide, by norm_num, ?_, ?_, ?_⟩ <;>
    rw [updatePeriod_of_discard _ _ _ _ _ _ hts
      ⟨by decide, Or.inr (Or.inr ⟨by decide, by decide⟩)⟩]
  simp

/-- C2 (amended).  Entry with a non-zero `timeStamp`, sequence-capable beacon
whose number `S` has not wrapped with respect to the stored number `L`
(`L ≤ S`) and whose forward distance from `L` is 0, 2 or 3: the call returns
false, delivers nothing, leaves `addr`, `timeStamp`, `averagePeriod` and `pIIU`
as they were and stores `S` in `lastBeaconNumber` (so at distance 0 the entry
is unchanged). -/
theorem updatePeriod_distance_0_2_3 (CA_V410 : Nat → Bool) (self : bhe)
    (programBeginTime currentTime : epicsTime) (beaconNumber protocolRevision : Nat)
    (hts : self.timeStamp ≠ epicsTime.zero) (hv : CA_V410 protocolRevision = true)
    (hS : beaconNumber < 2 ^ 32) (hle : self.lastBeaconNumber ≤ beaconNumber)
    (hdist : (beaconNumber + 2 ^ 32 - self.lastBeaconNumber) % 2 ^ 32 = 0 ∨
      (beaconNumber + 2 ^ 32 - self.lastBeaconNumber) % 2 ^ 32 = 2 ∨
      (beaconNumber + 2 ^ 32 - self.lastBeaconNumber) % 2 ^ 32 = 3) :
    self.updatePeriod CA_V410 programBeginTime currentTime beaconNumber protocolRevision =
      { entry := { self with lastBeaconNumber := beaconNumber }
        netChange := false
        anomalyCalls := 0
        delivered := [] } := by
  apply updatePeriod_of_discard _ _ _ _ _ _ hts
  refine ⟨hv, ?_⟩
  rcases Nat.lt_or_ge self.lastBeaconNumber beaconNumber with hlt | hge
  · rw [beaconSeqAdvance_of_gt _ _ hS hlt]
    unfold ca_uint32_max
    norm_num at hS hdist ⊢
    omega
  · rw [beaconSeqAdvance_of_le _ _ (lt_of_le_of_lt hle hS) hge]
    unfold ca_uint32_max
    norm_num at hS hdist ⊢
    omega

/-- C2 (witness).  The amended statement at stored number 5 and beacon
number 7. -/
theorem updatePeriod_distance_0_2_3_witness :
    (100 : epicsTime) ≠ epicsTime.zero ∧ CA_V410 13 = true ∧ 7 < 2 ^ 32 ∧ 5 ≤ 7 ∧
    bhe.updatePeriod CA_V410
        { addr := 0, timeStamp := 100, averagePeriod := 15, pIIU := some 1,
          lastBeaconNumber := 5 } 0 115 7 13 =
      { entry :=
          { addr := 0, timeStamp := 100, averagePeriod := 15, pIIU := some 1,
            lastBeaconNumber := 7 }
        netChange := false
        anomalyCalls := 0
        delivered := [] } :=
  ⟨by norm_num [epicsTime.zero], by decide, by norm_num, by norm_num,
    updatePeriod_distance_0_2_3 CA_V410
      { addr := 0, timeStamp := 100, averagePeriod := 15, pIIU := some 1,
        lastBeaconNumber := 5 } 0 115 7 13
      (by norm_num [epicsTime.zero]) (by decide) (by norm_num) (by norm_num)
      (Or.inr (Or.inl (by norm_num)))⟩

/-- C3.  Entry with a non-zero `timeStamp`, sequence-capable beacon with
number `S`, stored number `L`, and either `S ≤ L` with `L - S ≤ 255` or `S > L`
with `S - L` equal to 2 or 3: the call returns false, invokes and delivers no
notification, leaves `timeStamp`, `averagePeriod` and `pIIU` unchanged, and
sets `lastBeaconNumber` to `S`. -/
theorem updatePeriod_repeated_or_stale_beacon (CA_V410 : Nat → Bool) (self : bhe)
    (programBeginTime currentTime : epicsTime) (beaconNumber protocolRevision : Nat)
    (hts : self.timeStamp ≠ epicsTime.zero) (hv : CA_V410 protocolRevision = true)
    (hL : self.lastBeaconNumber < 2 ^ 32) (hS : beaconNumber < 2 ^ 32)
    (hseq : (beaconNumber ≤ self.lastBeaconNumber ∧
        self.lastBeaconNumber - beaconNumber ≤ 255) ∨
      (beaconNumber > self.lastBeaconNumber ∧
        (beaconNumber - self.lastBeaconNumber = 2 ∨
          beaconNumber - self.lastBeaconNumber = 3))) :
    (self.updatePeriod CA_V410 programBeginTime currentTime beaconNumber
        protocolRevision).netChange = false ∧
    (self.updatePeriod CA_V410 programBeginTime currentTime beaconNumber
        protocolRevision).anomalyCalls = 0 ∧
    (self.updatePeriod CA_V410 programBeginTime currentTime beaconNumber
        protocolRevision).delivered = [] ∧
    (self.updatePeriod CA_V410 programBeginTime currentTime beaconNumber
        protocolRevision).entry.timeStamp = self.timeStamp ∧
    (self.updatePeriod CA_V410 programBeginTime currentTime beaconNumber
        protocolRevision).entry.averagePeriod = self.averagePeriod ∧
    (self.updatePeriod CA_V410 programBeginTime currentTime beaconNumber
        protocolRevision).entry.pIIU = self.pIIU ∧
    (self.updatePeriod CA_V410 programBeginTime currentTime beaconNumber
        protocolRevision).entry.lastBeaconNumber = beaconNumber := by
  have hd : self.discardsBeacon CA_V410 beaconNumber protocolRevision := by
    refine ⟨hv, ?_⟩
    rcases hseq with ⟨hle, hsmall⟩ | ⟨hgt, hjump⟩
    · rw [beaconSeqAdvance_of_le _ _ hL hle]
      unfold ca_uint32_max
      norm_num at hL hS ⊢
      omega
    · rw [beaconSeqAdvance_of_gt _ _ hS hgt]
      unfold ca_uint32_max
      omega
  rw [updatePeriod_of_discard _ _ _ _ _ _ hts hd]
  exact ⟨rfl, rfl, rfl, rfl, rfl, rfl, rfl⟩

/-- C3 (witness).  Stored number 300, beacon number 245, which is 55 behind it. -/
theorem updatePeriod_repeated_or_stale_beacon_witness :
    (100 : epicsTime) ≠ epicsTime.zero ∧ CA_V410 13 = true ∧
    300 < 2 ^ 32 ∧ 245 < 2 ^ 32 ∧ (245 ≤ 300 ∧ 300 - 245 ≤ 255) ∧
    (bhe.updatePeriod CA_V410
        { addr := 0, timeStamp := 100, averagePeriod := 15, pIIU := some 1,
          lastBeaconNumber := 300 } 0 115 245 13).netChange = false ∧
    (bhe.updatePeriod CA_V410
        { addr := 0, timeStamp := 100, averagePeriod := 15, pIIU := some 1,
          lastBeaconNumber := 300 } 0 115 245 13).delivered = [] ∧
    (bhe.updatePeriod CA_V410
        { addr := 0, timeStamp := 100, averagePeriod := 15, pIIU := some 1,
          lastBeaconNumber := 300 } 0 115 245 13).entry.lastBeaconNumber = 245 :=
  have h := updatePeriod_repeated_or_stale_beacon CA_V410
      { addr := 0, timeStamp := 100, averagePeriod := 15, pIIU := some 1,
        lastBeaconNumber := 300 } 0 115 245 13
      (by norm_num [epicsTime.zero]) (by decide) (by norm_num) (by norm_num)
      (Or.inl ⟨by norm_num, by norm_num⟩)
  ⟨by norm_num [epicsTime.zero], by decide, by norm_num, by norm_num,
    ⟨by norm_num, by norm_num⟩, h.1, h.2.2.1, h.2.2.2.2.2.2⟩

/-- C4.  Entry with a non-zero `timeStamp` whose stored number is
`ca_uint32_max - 1`, sequence-capable beacon with number 1: the computed
sequence advance is exactly 2, the call returns false and `timeStamp` and
`averagePeriod` are unchanged. -/
theorem updatePeriod_wraparound_advance_two (CA_V410 : Nat → Bool) (self : bhe)
    (programBeginTime currentTime : epicsTime) (protocolRevision : Nat)
    (hts : self.timeStamp ≠ epicsTime.zero) (hv : CA_V410 protocolRevision = true)
    (hL : self.lastBeaconNumber = ca_uint32_max - 1) :
    ca_uint32_max = 2 ^ 32 - 1 ∧
    beaconSeqAdvance self.lastBeaconNumber 1 = 2 ∧
    (self.updatePeriod CA_V410 programBeginTime currentTime 1
        protocolRevision).netChange = false ∧
    (self.updatePeriod CA_V410 programBeginTime currentTime 1
        protocolRevision).entry.timeStamp = self.timeStamp ∧
    (self.updatePeriod CA_V410 programBeginTime currentTime 1
        protocolRevision).entry.averagePeriod = self.averagePeriod := by
  have hadv : beaconSeqAdvance self.lastBeaconNumber 1 = 2 := by
    rw [hL]
    decide
  have hd : self.discardsBeacon CA_V410 1 protocolRevision :=
    ⟨hv, Or.inr (Or.inr (by rw [hadv]; exact ⟨by decide, by decide⟩))⟩
  rw [updatePeriod_of_discard _ _ _ _ _ _ hts hd]
  exact ⟨by decide, hadv, rfl, rfl, rfl⟩

/-- C4 (witness).  A steady-state entry with stored number `2 ^ 32 - 2`. -/
theorem updatePeriod_wraparound_advance_two_witness :
    (100 : epicsTime) ≠ epicsTime.zero ∧ CA_V410 13 = true ∧
    4294967294 = ca_uint32_max - 1 ∧
    beaconSeqAdvance 4294967294 1 = 2 ∧
    (bhe.updatePeriod CA_V410
        { addr := 0, timeStamp := 100, averagePeriod := 15, pIIU := some 1,
          lastBeaconNumber := 4294967294 } 0 115 1 13).netChange = false ∧
    (bhe.updatePeriod CA_V410
        { addr := 0, timeStamp := 100, averagePeriod := 15, pIIU := some 1,
          lastBeaconNumber := 4294967294 } 0 115 1 13).entry.timeStamp = 100 ∧
    (bhe.updatePeriod CA_V410
        { addr := 0, timeStamp := 100, averagePeriod := 15, pIIU := some 1,
          lastBeaconNumber := 4294967294 } 0 115 1 13).entry.averagePeriod = 15 :=
  ⟨by norm_num [epicsTime.zero], by decide, by decide,
    (updatePeriod_wraparound_advance_two CA_V410
      { addr := 0, timeStamp := 100, averagePeriod := 15, pIIU := some 1,
        lastBeaconNumber := 4294967294 } 0 115 13
      (by norm_num [epicsTime.zero]) (by decide) (by decide)).2⟩

/-! ## First sighting -/

/-- C5.  Entry whose `timeStamp` is the zero sentinel `epicsTime ()`, any
arrival time, beacon number and protocol revision: the call returns false,
sets `timeStamp` to the arrival time, leaves `averagePeriod` (and `pIIU`)
unchanged, and sets `lastBeaconNumber` to the beacon number exactly when the
revision is sequence-capable; `beaconAnomalyNotify` is invoked once. -/
theorem updatePeriod_first_sighting (CA_V410 : Nat → Bool) (self : bhe)
    (programBeginTime currentTime : epicsTime) (beaconNumber protocolRevision : Nat)
    (hts : self.timeStamp = epicsTime.zero) :
    (self.updatePeriod CA_V410 programBeginTime currentTime beaconNumber
        protocolRevision).netChange = false ∧
    (self.updatePeriod CA_V410 programBeginTime currentTime beaconNumber
        protocolRevision).entry.timeStamp = currentTime ∧
    (self.updatePeriod CA_V410 programBeginTime currentTime beaconNumber
        protocolRevision).entry.averagePeriod = self.averagePeriod ∧
    (self.updatePeriod CA_V410 programBeginTime currentTime beaconNumber
        protocolRevision).entry.pIIU = self.pIIU ∧
    (self.updatePeriod CA_V410 programBeginTime currentTime beaconNumber
        protocolRevision).entry.lastBeaconNumber =
      (if CA_V410 protocolRevision then beaconNumber else self.lastBeaconNumber) ∧
    (self.updatePeriod CA_V410 programBeginTime currentTime beaconNumber
        protocolRevision).anomalyCalls = 1 ∧
    (self.updatePeriod CA_V410 programBeginTime currentTime beaconNumber
        protocolRevision).delivered = self.beaconAnomalyNotify := by
  unfold bhe.updatePeriod
  rw [if_pos hts]
  cases hv : CA_V410 protocolRevision <;> simp [bhe.beaconAnomalyNotify]

/-- C5 (witness).  An entry made for a connection (zero `timeStamp`), stored
number 7, seeing beacon number 3 (distance of a discarded beacon) at time 100
on a sequence-capable revision. -/
theorem updatePeriod_first_sighting_witness :
    (0 : epicsTime) = epicsTime.zero ∧
    (bhe.updatePeriod CA_V410
        { addr := 0, timeStamp := 0, averagePeriod := - DBL_MAX, pIIU := some 1,
          lastBeaconNumber := 7 } 50 100 3 13).netChange = false ∧
    (bhe.updatePeriod CA_V410
        { addr := 0, timeStamp := 0, averagePeriod := - DBL_MAX, pIIU := some 1,
          lastBeaconNumber := 7 } 50 100 3 13).entry.timeStamp = 100 ∧
    (bhe.updatePeriod CA_V410
        { addr := 0, timeStamp := 0, averagePeriod := - DBL_MAX, pIIU := some 1,
          lastBeaconNumber := 7 } 50 100 3 13).entry.averagePeriod = - DBL_MAX ∧
    (bhe.updatePeriod CA_V410
        { addr := 0, timeStamp := 0, averagePeriod := - DBL_MAX, pIIU := some 1,
          lastBeaconNumber := 7 } 50 100 3 13).entry.lastBeaconNumber = 3 :=
  have h := updatePeriod_first_sighting CA_V410
      { addr := 0, timeStamp := 0, averagePeriod := - DBL_MAX, pIIU := some 1,
        lastBeaconNumber := 7 } 50 100 3 13 rfl
  ⟨rfl, h.1, h.2.1, h.2.2.1, h.2.2.2.2.1⟩

/-! ## Steady state and second beacon -/

/-- C8.  Entry with a non-zero `timeStamp` `T` whose `averagePeriod` is the
uninitialized value `- DBL_MAX`, beacon that passes the sequence filter and
arrives at `t`: `bhe::beaconAnomalyNotify` is invoked once (reaching the
attached circuit when there is one), `averagePeriod` becomes `t - T`,
`timeStamp` becomes `t`, and the call returns true exactly when
`t - T ≤ T - programBeginTime`. -/
theorem updatePeriod_second_beacon (CA_V410 : Nat → Bool) (self : bhe)
    (programBeginTime currentTime : epicsTime) (beaconNumber protocolRevision : Nat)
    (hts : self.timeStamp ≠ epicsTime.zero) (hav : self.averagePeriod = - DBL_MAX)
    (hpass : ¬ self.discardsBeacon CA_V410 beaconNumber protocolRevision) :
    (self.updatePeriod CA_V410 programBeginTime currentTime beaconNumber
        protocolRevision).anomalyCalls = 1 ∧
    (self.updatePeriod CA_V410 programBeginTime currentTime beaconNumber
        protocolRevision).delivered = self.beaconAnomalyNotify ∧
    (self.updatePeriod CA_V410 programBeginTime currentTime beaconNumber
        protocolRevision).entry.averagePeriod = currentTime - self.timeStamp ∧
    (self.updatePeriod CA_V410 programBeginTime currentTime beaconNumber
        protocolRevision).entry.timeStamp = currentTime ∧
    ((self.updatePeriod CA_V410 programBeginTime currentTime beaconNumber
        protocolRevision).netChange = true ↔
      currentTime - self.timeStamp ≤ self.timeStamp - programBeginTime) := by
  have hneg : self.averagePeriod < 0 := by
    rw [hav]
    exact neg_lt_zero.mpr DBL_MAX_pos
  rw [updatePeriod_of_pass_second _ _ _ _ _ _ hts hpass hneg]
  exact ⟨rfl, rfl, rfl, rfl, decide_eq_true_iff⟩

/-- C8 (witness).  Entry created at time 100 by a first beacon, the second
beacon arriving at time 110 in a program that began at time 0. -/
theorem updatePeriod_second_beacon_witness :
    (100 : epicsTime) ≠ epicsTime.zero ∧ (- DBL_MAX : ℚ) = - DBL_MAX ∧
    ¬ bhe.discardsBeacon CA_V410
        { addr := 0, timeStamp := 100, averagePeriod := - DBL_MAX, pIIU := some 1,
          lastBeaconNumber := 5 } 6 13 ∧
    (bhe.updatePeriod CA_V410
        { addr := 0, timeStamp := 100, averagePeriod := - DBL_MAX, pIIU := some 1,
          lastBeaconNumber := 5 } 0 110 6 13).entry.averagePeriod = 110 - 100 ∧
    (bhe.updatePeriod CA_V410
        { addr := 0, timeStamp := 100, averagePeriod := - DBL_MAX, pIIU := some 1,
          lastBeaconNumber := 5 } 0 110 6 13).entry.timeStamp = 110 ∧
    (bhe.updatePeriod CA_V410
        { addr := 0, timeStamp := 100, averagePeriod := - DBL_MAX, pIIU := some 1,
          lastBeaconNumber := 5 } 0 110 6 13).netChange = true :=
  have h := updatePeriod_second_beacon CA_V410
      { addr := 0, timeStamp := 100, averagePeriod := - DBL_MAX, pIIU := some 1,
        lastBeaconNumber := 5 } 0 110 6 13
      (by norm_num [epicsTime.zero]) rfl (by decide)
  ⟨by norm_num [epicsTime.zero], rfl, by decide, h.2.2.1, h.2.2.2.1,
    h.2.2.2.2.mpr (by norm_num)⟩

/-- A beacon whose number exceeds the stored one by 1, or by at least 4 and
at most `2 ^ 32 - 257`, is never thrown away by the sequence number tests. -/
theorem not_discardsBeacon_of_step (CA_V410 : Nat → Bool) (self : bhe)
    (beaconNumber protocolRevision : Nat) (hS : beaconNumber < 2 ^ 32)
    (hlt : self.lastBeaconNumber < beaconNumber)
    (hstep : beaconNumber - self.lastBeaconNumber = 1 ∨
      (4 ≤ beaconNumber - self.lastBeaconNumber ∧
        beaconNumber - self.lastBeaconNumber ≤ 2 ^ 32 - 257)) :
    ¬ self.discardsBeacon CA_V410 beaconNumber protocolRevision := by
  rintro ⟨-, hadv⟩
  rw [beaconSeqAdvance_of_gt _ _ hS hlt] at hadv
  unfold ca_uint32_max at hadv
  norm_num at hstep
  omega

/-- State of an entry created by a first beacon at time `T0` with number
`number 0` after `n` further beacons that arrive `P` apart, each number
exceeding the one before by 1 or by at least 4 and at most `2 ^ 32 - 257`. -/
theorem afterBeacons_constant_rate (CA_V410 : Nat → Bool)
    (programBeginTime T0 P : epicsTime) (protocolRevision : Nat) (number : Nat → Nat)
    (addr : inetAddrID) (n : Nat) (hP : 0 < P)
    (hnumber : ∀ k, k < n → number k < number (k + 1) ∧ number (k + 1) < 2 ^ 32 ∧
      (number (k + 1) - number k = 1 ∨
        (4 ≤ number (k + 1) - number k ∧ number (k + 1) - number k ≤ 2 ^ 32 - 257))) :
    (bhe.afterBeacons CA_V410 programBeginTime protocolRevision
        (fun k => T0 + k * P) number (bhe.mk0 T0 (number 0) addr) n).timeStamp =
      T0 + n * P ∧
    (CA_V410 protocolRevision = true →
      (bhe.afterBeacons CA_V410 programBeginTime protocolRevision
        (fun k => T0 + k * P) number (bhe.mk0 T0 (number 0) addr) n).lastBeaconNumber =
        number n) ∧
    ((bhe.afterBeacons CA_V410 programBeginTime protocolRevision
        (fun k => T0 + k * P) number (bhe.mk0 T0 (number 0) addr) n).averagePeriod = P ∨
      ((bhe.afterBeacons CA_V410 programBeginTime protocolRevision
          (fun k => T0 + k * P) number (bhe.mk0 T0 (number 0) addr) n).averagePeriod =
          - DBL_MAX ∧
        (n = 0 ∨ (n = 1 ∧ T0 = 0)))) := by
  induction n with
  | zero =>
    refine ⟨?_, fun _ => rfl, Or.inr ⟨rfl, Or.inl rfl⟩⟩
    simp [bhe.afterBeacons, bhe.mk0]
  | succ n ih =>
    obtain ⟨hts, hnum, hav⟩ := ih (fun k hk => hnumber k (Nat.lt_succ_of_lt hk))
    obtain ⟨hlt, hbound, hstep⟩ := hnumber n (Nat.lt_succ_self n)
    rw [bhe.afterBeacons]
    generalize bhe.afterBeacons CA_V410 programBeginTime protocolRevision
      (fun k => T0 + k * P) number (bhe.mk0 T0 (number 0) addr) n = e at hts hnum hav
    have hcast : T0 + ((n + 1 : ℕ) : ℚ) * P - (T0 + n * P) = P := by
      push_cast
      ring
    by_cases hz : e.timeStamp = epicsTime.zero
    · rw [updatePeriod_of_zero_timeStamp _ _ _ _ _ _ hz]
      refine ⟨rfl, fun hv => ?_, ?_⟩
      · simp only [hv, if_true]
      · rcases hav with hav | ⟨hav, h0 | ⟨h1, hT0⟩⟩
        · exact Or.inl hav
        · refine Or.inr ⟨hav, Or.inr ⟨by omega, ?_⟩⟩
          rw [hts, h0] at hz
          simpa [epicsTime.zero] using hz
        · exfalso
          rw [hts, h1, hT0] at hz
          simp [epicsTime.zero] at hz
          exact hP.ne' hz
    · have hpass : ¬ e.discardsBeacon CA_V410 (number (n + 1)) protocolRevision := by
        by_cases hv : CA_V410 protocolRevision = true
        · have hnum' := hnum hv
          rw [← hnum'] at hlt hstep
          exact not_discardsBeacon_of_step _ _ _ _ hbound hlt hstep
        · exact fun hd => hv hd.1
      rcases hav with hav | ⟨hav, -⟩
      · rw [updatePeriod_of_pass_steady _ _ _ _ _ _ hz hpass (by rw [hav]; exact hP.le)]
        refine ⟨rfl, fun hv => ?_, Or.inl ?_⟩
        · simp only [hv, if_true]
        · show (T0 + ((n + 1 : ℕ) : ℚ) * P - e.timeStamp) * 0.125 +
            e.averagePeriod * 0.875 = P
          rw [hts, hcast, hav]
          norm_num
          ring
      · rw [updatePeriod_of_pass_second _ _ _ _ _ _ hz hpass
          (by rw [hav]; exact neg_lt_zero.mpr DBL_MAX_pos)]
        refine ⟨rfl, fun hv => ?_, Or.inl ?_⟩
        · simp only [hv, if_true]
        · show T0 + ((n + 1 : ℕ) : ℚ) * P - e.timeStamp = P
          rw [hts, hcast]

/-- C10 (counterexample).  Entry created by a first beacon at time 100 with
number 0, then 20 beacons exactly 1 second apart whose numbers 2, 4, ..., 40
are increasing: every one of them is discarded, `averagePeriod` still is
`- DBL_MAX`, and `|averagePeriod - P| < 0.001 * P` fails for `P = 1`. -/
theorem afterBeacons_step_two_no_convergence :
    (0 : ℚ) < 1 ∧ 20 ≤ 20 ∧ StrictMono (fun k : Nat => 2 * k) ∧
    (bhe.afterBeacons CA_V410 0 13 (fun k => 100 + k * 1) (fun k => 2 * k)
        (bhe.mk0 100 0 0) 20).averagePeriod = - DBL_MAX ∧
    ¬ |(bhe.afterBeacons CA_V410 0 13 (fun k => 100 + k * 1) (fun k => 2 * k)
        (bhe.mk0 100 0 0) 20).averagePeriod - 1| < 0.001 * 1 := by
  refine ⟨by norm_num, le_refl _, fun a b h => ?_, by decide!, by decide!⟩
  show 2 * a < 2 * b
  omega

/-- C10 (amended).  For every `P > 0` and every `n ≥ 20`: entry created by a
first beacon (time `T0`, number `number 0`), then `n` beacons whose arrival
times are exactly `P` apart and whose numbers increase without wrapping, each
exceeding the one before by 1 or by at least 4 and at most `2 ^ 32 - 257`.
With exact arithmetic `averagePeriod` then equals `P`, so
`|averagePeriod - P| < 0.001 * P`. -/
theorem afterBeacons_constant_rate_converges (CA_V410 : Nat → Bool)
    (programBeginTime T0 P : epicsTime) (protocolRevision : Nat) (number : Nat → Nat)
    (addr : inetAddrID) (n : Nat) (hP : 0 < P) (hn : 20 ≤ n)
    (hnumber : ∀ k, k < n → number k < number (k + 1) ∧ number (k + 1) < 2 ^ 32 ∧
      (number (k + 1) - number k = 1 ∨
        (4 ≤ number (k + 1) - number k ∧ number (k + 1) - number k ≤ 2 ^ 32 - 257))) :
    |(bhe.afterBeacons CA_V410 programBeginTime protocolRevision
        (fun k => T0 + k * P) number (bhe.mk0 T0 (number 0) addr) n).averagePeriod - P| <
      0.001 * P := by
  obtain ⟨-, -, hav⟩ :=
    afterBeacons_constant_rate CA_V410 programBeginTime T0 P protocolRevision number addr n
      hP hnumber
  rcases hav with hav | ⟨-, h0 | ⟨h1, -⟩⟩
  · rw [hav, sub_self, abs_zero]
    norm_num
    exact hP
  · omega
  · omega

/-- C10 (witness).  Twenty beacons 10 seconds apart with consecutive numbers
after a first beacon at time 100 with number 0. -/
theorem afterBeacons_constant_rate_converges_witness :
    (0 : ℚ) < 10 ∧ 20 ≤ 20 ∧
    (∀ k : Nat, k < 20 → k < k + 1 ∧ k + 1 < 2 ^ 32 ∧
      (k + 1 - k = 1 ∨ (4 ≤ k + 1 - k ∧ k + 1 - k ≤ 2 ^ 32 - 257))) ∧
    |(bhe.afterBeacons CA_V410 0 13 (fun k => 100 + k * 10) (fun k => k)
        (bhe.mk0 100 0 0) 20).averagePeriod - 10| < 0.001 * 10 :=
  have hnumber : ∀ k : Nat, k < 20 → k < k + 1 ∧ k + 1 < 2 ^ 32 ∧
      (k + 1 - k = 1 ∨ (4 ≤ k + 1 - k ∧ k + 1 - k ≤ 2 ^ 32 - 257)) := by
    intro k hk
    refine ⟨Nat.lt_succ_self k, ?_, Or.inl (by simp)⟩
    norm_num
    omega
  ⟨by norm_num, le_refl _, hnumber,
    afterBeacons_constant_rate_converges CA_V410 0 100 10 13 (fun k => k) 0 20
      (by norm_num) (le_refl _) hnumber⟩

/-! ## Attaching and detaching a virtual circuit -/

/-- C11.  Entry attached to the circuit `iiu`, in any state: after
`unregisterIIU ( iiu )` the next `updatePeriod`, for every arrival time and
every beacon number on a sequence-capable revision, returns false, leaves
`averagePeriod` at `- DBL_MAX`, and yields the same `timeStamp`,
`averagePeriod`, `lastBeaconNumber` (and `pIIU`, return value and delivered
calls) as the same call on a newly constructed entry whose `timeStamp` is the
zero sentinel. -/
theorem updatePeriod_after_unregisterIIU (CA_V410 : Nat → Bool) (self : bhe)
    (iiu : tcpiiu) (programBeginTime currentTime : epicsTime)
    (beaconNumber protocolRevision initialBeaconNumber : Nat) (addr : inetAddrID)
    (hiiu : self.pIIU = some iiu) (hv : CA_V410 protocolRevision = true) :
    ((self.unregisterIIU iiu).updatePeriod CA_V410 programBeginTime currentTime
        beaconNumber protocolRevision).netChange = false ∧
    ((self.unregisterIIU iiu).updatePeriod CA_V410 programBeginTime currentTime
        beaconNumber protocolRevision).entry.averagePeriod = - DBL_MAX ∧
    ((self.unregisterIIU iiu).updatePeriod CA_V410 programBeginTime currentTime
        beaconNumber protocolRevision).entry.timeStamp =
      ((bhe.mk0 epicsTime.zero initialBeaconNumber addr).updatePeriod CA_V410
        programBeginTime currentTime beaconNumber protocolRevision).entry.timeStamp ∧
    ((self.unregisterIIU iiu).updatePeriod CA_V410 programBeginTime currentTime
        beaconNumber protocolRevision).entry.averagePeriod =
      ((bhe.mk0 epicsTime.zero initialBeaconNumber addr).updatePeriod CA_V410
        programBeginTime currentTime beaconNumber protocolRevision).entry.averagePeriod ∧
    ((self.unregisterIIU iiu).updatePeriod CA_V410 programBeginTime currentTime
        beaconNumber protocolRevision).entry.lastBeaconNumber =
      ((bhe.mk0 epicsTime.zero initialBeaconNumber addr).updatePeriod CA_V410
        programBeginTime currentTime beaconNumber
        protocolRevision).entry.lastBeaconNumber ∧
    ((self.unregisterIIU iiu).updatePeriod CA_V410 programBeginTime currentTime
        beaconNumber protocolRevision).entry.pIIU =
      ((bhe.mk0 epicsTime.zero initialBeaconNumber addr).updatePeriod CA_V410
        programBeginTime currentTime beaconNumber protocolRevision).entry.pIIU ∧
    ((self.unregisterIIU iiu).updatePeriod CA_V410 programBeginTime currentTime
        beaconNumber protocolRevision).netChange =
      ((bhe.mk0 epicsTime.zero initialBeaconNumber addr).updatePeriod CA_V410
        programBeginTime currentTime beaconNumber protocolRevision).netChange ∧
    ((self.unregisterIIU iiu).updatePeriod CA_V410 programBeginTime currentTime
        beaconNumber protocolRevision).delivered =
      ((bhe.mk0 epicsTime.zero initialBeaconNumber addr).updatePeriod CA_V410
        programBeginTime currentTime beaconNumber protocolRevision).delivered := by
  have hu : (self.unregisterIIU iiu).timeStamp = epicsTime.zero := by
    unfold bhe.unregisterIIU
    rw [if_pos hiiu]
  have hf : (bhe.mk0 epicsTime.zero initialBeaconNumber addr).timeStamp =
      epicsTime.zero := rfl
  rw [updatePeriod_of_zero_timeStamp _ _ _ _ _ _ hu,
    updatePeriod_of_zero_timeStamp _ _ _ _ _ _ hf]
  unfold bhe.unregisterIIU
  rw [if_pos hiiu]
  simp [hv, bhe.mk0, bhe.beaconAnomalyNotify]

/-- C11 (witness).  A steady-state entry attached to circuit 1 is detached and
then sees beacon number 9 at time 130. -/
theorem updatePeriod_after_unregisterIIU_witness :
    (some 1 : Option tcpiiu) = some 1 ∧ CA_V410 13 = true ∧
    ((bhe.unregisterIIU
        { addr := 0, timeStamp := 100, averagePeriod := 15, pIIU := some 1,
          lastBeaconNumber := 5 } 1).updatePeriod CA_V410 0 130 9 13).netChange = false ∧
    ((bhe.unregisterIIU
        { addr := 0, timeStamp := 100, averagePeriod := 15, pIIU := some 1,
          lastBeaconNumber := 5 } 1).updatePeriod CA_V410 0 130 9
        13).entry.averagePeriod = - DBL_MAX ∧
    ((bhe.unregisterIIU
        { addr := 0, timeStamp := 100, averagePeriod := 15, pIIU := some 1,
          lastBeaconNumber := 5 } 1).updatePeriod CA_V410 0 130 9
        13).entry.lastBeaconNumber =
      ((bhe.mk0 epicsTime.zero 77 3).updatePeriod CA_V410 0 130 9
        13).entry.lastBeaconNumber :=
  have h := updatePeriod_after_unregisterIIU CA_V410
      { addr := 0, timeStamp := 100, averagePeriod := 15, pIIU := some 1,
        lastBeaconNumber := 5 } 1 0 130 9 13 77 3 rfl (by decide)
  ⟨rfl, by decide, h.1, h.2.1, h.2.2.2.2.1⟩

/-- C12.  `unregisterIIU ( iiu )` on an entry whose `pIIU` is not `iiu` (null
included) returns the entry as it was; on an entry whose `pIIU` is `iiu` it
clears `pIIU`, sets `timeStamp` to the zero sentinel and `averagePeriod` to
`- DBL_MAX`, and leaves `lastBeaconNumber` (and `addr`) as they were.  The
function is total: there is no error result. -/
theorem unregisterIIU_guarded_by_identity (self : bhe) (iiu : tcpiiu) :
    (self.pIIU ≠ some iiu → self.unregisterIIU iiu = self) ∧
    (self.pIIU = some iiu →
      (self.unregisterIIU iiu).pIIU = none ∧
      (self.unregisterIIU iiu).timeStamp = epicsTime.zero ∧
      (self.unregisterIIU iiu).averagePeriod = - DBL_MAX ∧
      (self.unregisterIIU iiu).lastBeaconNumber = self.lastBeaconNumber ∧
      (self.unregisterIIU iiu).addr = self.addr) := by
  unfold bhe.unregisterIIU
  constructor
  · intro h
    rw [if_neg h]
  · intro h
    rw [if_pos h]
    exact ⟨rfl, rfl, rfl, rfl, rfl⟩

/-- C12 (witness).  Detaching circuit 2 from an entry attached to circuit 1
and from an entry attached to nothing changes neither; detaching circuit 1
from the first resets it. -/
theorem unregisterIIU_guarded_by_identity_witness :
    bhe.unregisterIIU
        { addr := 0, timeStamp := 100, averagePeriod := 15, pIIU := some 1,
          lastBeaconNumber := 5 } 2 =
      { addr := 0, timeStamp := 100, averagePeriod := 15, pIIU := some 1,
        lastBeaconNumber := 5 } ∧
    bhe.unregisterIIU
        { addr := 0, timeStamp := 100, averagePeriod := 15, pIIU := none,
          lastBeaconNumber := 5 } 2 =
      { addr := 0, timeStamp := 100, averagePeriod := 15, pIIU := none,
        lastBeaconNumber := 5 } ∧
    (bhe.unregisterIIU
        { addr := 0, timeStamp := 100, averagePeriod := 15, pIIU := some 1,
          lastBeaconNumber := 5 } 1).pIIU = none ∧
    (bhe.unregisterIIU
        { addr := 0, timeStamp := 100, averagePeriod := 15, pIIU := some 1,
          lastBeaconNumber := 5 } 1).timeStamp = epicsTime.zero :=
  have h1 := (unregisterIIU_guarded_by_identity
      { addr := 0, timeStamp := 100, averagePeriod := 15, pIIU := some 1,
        lastBeaconNumber := 5 } 1).2 rfl
  ⟨(unregisterIIU_guarded_by_identity
      { addr := 0, timeStamp := 100, averagePeriod := 15, pIIU := some 1,
        lastBeaconNumber := 5 } 2).1 (by decide),
    (unregisterIIU_guarded_by_identity
      { addr := 0, timeStamp := 100, averagePeriod := 15, pIIU := none,
        lastBeaconNumber := 5 } 2).1 (by decide),
    h1.1, h1.2.1⟩

/-- C13 (counterexample).  A circuit is attached at the time `now` that equals
the zero sentinel `epicsTime ()`; the next beacon passes the sequence number
tests and arrives at `t = 10 > now`, yet it is handled as a first sighting:
`averagePeriod` stays `- DBL_MAX` instead of becoming `t - now = 10`. -/
theorem registerIIU_at_zero_then_beacon :
    (0 : epicsTime) < 10 ∧
    ¬ bhe.discardsBeacon CA_V410
        (bhe.registerIIU
          { addr := 0, timeStamp := 100, averagePeriod := 15, pIIU := none,
            lastBeaconNumber := 5 } 1 0) 6 13 ∧
    ((bhe.registerIIU
        { addr := 0, timeStamp := 100, averagePeriod := 15, pIIU := none,
          lastBeaconNumber := 5 } 1 0).updatePeriod CA_V410 0 10 6
        13).entry.averagePeriod = - DBL_MAX ∧
    ((bhe.registerIIU
        { addr := 0, timeStamp := 100, averagePeriod := 15, pIIU := none,
          lastBeaconNumber := 5 } 1 0).updatePeriod CA_V410 0 10 6
        13).entry.averagePeriod ≠ 10 - 0 := by
  have hz : (bhe.registerIIU
      { addr := 0, timeStamp := 100, averagePeriod := 15, pIIU := none,
        lastBeaconNumber := 5 } 1 0).timeStamp = epicsTime.zero := rfl
  refine ⟨by norm_num, by decide, ?_, ?_⟩
  · rw [updatePeriod_of_zero_timeStamp _ _ _ _ _ _ hz]
    rfl
  · rw [updatePeriod_of_zero_timeStamp _ _ _ _ _ _ hz]
    show - DBL_MAX ≠ 10 - 0
    have := DBL_MAX_pos
    intro h
    linarith

/-- C13 (amended).  For every entry, circuit `iiu` and time `now`, the zero
sentinel included, after `registerIIU ( iiu, now )` the entry points to `iiu`,
`timeStamp` is `now`, `averagePeriod` is `- DBL_MAX` (the value `period ()`
returns) and `lastBeaconNumber` (and `addr`) are unchanged.  When moreover
`now` is not the zero sentinel, the next beacon that passes the sequence number
tests and arrives at `t > now` is handled as a second beacon
(`bhe::beaconAnomalyNotify` is invoked and reaches `iiu`) and sets
`averagePeriod` to `t - now`, a positive value, and `timeStamp` to `t`. -/
theorem registerIIU_resets_statistics (CA_V410 : Nat → Bool) (self : bhe)
    (iiu : tcpiiu) (now programBeginTime t : epicsTime)
    (beaconNumber protocolRevision : Nat) :
    ((self.registerIIU iiu now).pIIU = some iiu ∧
      (self.registerIIU iiu now).timeStamp = now ∧
      (self.registerIIU iiu now).averagePeriod = - DBL_MAX ∧
      (self.registerIIU iiu now).period = - DBL_MAX ∧
      (self.registerIIU iiu now).lastBeaconNumber = self.lastBeaconNumber ∧
      (self.registerIIU iiu now).addr = self.addr) ∧
    (now ≠ epicsTime.zero → now < t →
      ¬ (self.registerIIU iiu now).discardsBeacon CA_V410 beaconNumber
        protocolRevision →
      ((self.registerIIU iiu now).updatePeriod CA_V410 programBeginTime t beaconNumber
          protocolRevision).anomalyCalls = 1 ∧
      ((self.registerIIU iiu now).updatePeriod CA_V410 programBeginTime t beaconNumber
          protocolRevision).delivered = [Notification.beaconAnomalyNotify iiu] ∧
      ((self.registerIIU iiu now).updatePeriod CA_V410 programBeginTime t beaconNumber
          protocolRevision).entry.averagePeriod = t - now ∧
      ((self.registerIIU iiu now).updatePeriod CA_V410 programBeginTime t beaconNumber
          protocolRevision).entry.timeStamp = t ∧
      0 < ((self.registerIIU iiu now).updatePeriod CA_V410 programBeginTime t
          beaconNumber protocolRevision).entry.averagePeriod) := by
  refine ⟨⟨rfl, rfl, rfl, rfl, rfl, rfl⟩, ?_⟩
  intro hnow ht hpass
  have hts : (self.registerIIU iiu now).timeStamp ≠ epicsTime.zero := hnow
  have hneg : (self.registerIIU iiu now).averagePeriod < 0 :=
    neg_lt_zero.mpr DBL_MAX_pos
  rw [updatePeriod_of_pass_second _ _ _ _ _ _ hts hpass hneg]
  exact ⟨rfl, rfl, rfl, rfl, sub_pos.mpr ht⟩

/-- C13 (witness).  Circuit 1 is attached to a steady-state entry at the zero
stamp, where the entry is reset all the same, and at time 200, where the
following beacon arrives at time 212 and sets the average period to 12. -/
theorem registerIIU_resets_statistics_witness :
    bhe.registerIIU
        { addr := 0, timeStamp := 100, averagePeriod := 15, pIIU := none,
          lastBeaconNumber := 5 } 1 0 =
      { addr := 0, timeStamp := 0, averagePeriod := - DBL_MAX, pIIU := some 1,
        lastBeaconNumber := 5 } ∧
    (bhe.registerIIU
        { addr := 0, timeStamp := 100, averagePeriod := 15, pIIU := none,
          lastBeaconNumber := 5 } 1 0).pIIU = some 1 ∧
    (bhe.registerIIU
        { addr := 0, timeStamp := 100, averagePeriod := 15, pIIU := none,
          lastBeaconNumber := 5 } 1 0).timeStamp = 0 ∧
    (bhe.registerIIU
        { addr := 0, timeStamp := 100, averagePeriod := 15, pIIU := none,
          lastBeaconNumber := 5 } 1 0).averagePeriod = - DBL_MAX ∧
    (200 : epicsTime) ≠ epicsTime.zero ∧ (200 : epicsTime) < 212 ∧
    ¬ bhe.discardsBeacon CA_V410
        (bhe.registerIIU
          { addr := 0, timeStamp := 100, averagePeriod := 15, pIIU := none,
            lastBeaconNumber := 5 } 1 200) 6 13 ∧
    (bhe.registerIIU
        { addr := 0, timeStamp := 100, averagePeriod := 15, pIIU := none,
          lastBeaconNumber := 5 } 1 200).timeStamp = 200 ∧
    ((bhe.registerIIU
        { addr := 0, timeStamp := 100, averagePeriod := 15, pIIU := none,
          lastBeaconNumber := 5 } 1 200).updatePeriod CA_V410 0 212 6
        13).entry.averagePeriod = 212 - 200 ∧
    ((bhe.registerIIU
        { addr := 0, timeStamp := 100, averagePeriod := 15, pIIU := none,
          lastBeaconNumber := 5 } 1 200).updatePeriod CA_V410 0 212 6
        13).delivered = [Notification.beaconAnomalyNotify 1] :=
  have h0 := (registerIIU_resets_statistics CA_V410
      { addr := 0, timeStamp := 100, averagePeriod := 15, pIIU := none,
        lastBeaconNumber := 5 } 1 0 0 212 6 13).1
  have h := registerIIU_resets_statistics CA_V410
      { addr := 0, timeStamp := 100, averagePeriod := 15, pIIU := none,
        lastBeaconNumber := 5 } 1 200 0 212 6 13
  have hc := h.2 (by norm_num [epicsTime.zero]) (by norm_num) (by decide)
  ⟨rfl, h0.1, h0.2.1, h0.2.2.1,
    by norm_num [epicsTime.zero], by norm_num, by decide, h.1.2.1, hc.2.2.1, hc.2.1⟩

/-! ## Beacons that are let through, and creation -/

/-- C14.  Entry with a non-zero `timeStamp`; the beacon is on a revision without
sequence numbers, or it is on a sequence-capable revision with a number `S`
larger than the stored number `L` such that `S - L = 1` or
`4 ≤ S - L ≤ 2 ^ 32 - 257`.  Then the beacon is not discarded, after the call
`timeStamp` is the arrival time, and when the arrival time is not earlier than
the previous `timeStamp` the new `averagePeriod` is not negative, hence not the
uninitialized value `- DBL_MAX`. -/
theorem updatePeriod_legitimate_beacon (CA_V410 : Nat → Bool) (self : bhe)
    (programBeginTime currentTime : epicsTime) (beaconNumber protocolRevision : Nat)
    (hts : self.timeStamp ≠ epicsTime.zero)
    (hseq : CA_V410 protocolRevision = false ∨
      (CA_V410 protocolRevision = true ∧ beaconNumber < 2 ^ 32 ∧
        beaconNumber > self.lastBeaconNumber ∧
        (beaconNumber - self.lastBeaconNumber = 1 ∨
          (4 ≤ beaconNumber - self.lastBeaconNumber ∧
            beaconNumber - self.lastBeaconNumber ≤ 2 ^ 32 - 257)))) :
    ¬ self.discardsBeacon CA_V410 beaconNumber protocolRevision ∧
    (self.updatePeriod CA_V410 programBeginTime currentTime beaconNumber
        protocolRevision).entry.timeStamp = currentTime ∧
    (self.timeStamp ≤ currentTime →
      0 ≤ (self.updatePeriod CA_V410 programBeginTime currentTime beaconNumber
          protocolRevision).entry.averagePeriod ∧
      (self.updatePeriod CA_V410 programBeginTime currentTime beaconNumber
          protocolRevision).entry.averagePeriod ≠ - DBL_MAX) := by
  have hpass : ¬ self.discardsBeacon CA_V410 beaconNumber protocolRevision := by
    rcases hseq with hv | ⟨-, hS, hgt, hstep⟩
    · intro hd
      rw [hd.1] at hv
      exact Bool.noConfusion hv
    · exact not_discardsBeacon_of_step _ _ _ _ hS hgt hstep
  have hsent : ∀ x : ℚ, 0 ≤ x → x ≠ - DBL_MAX := by
    intro x hx h
    have := DBL_MAX_pos
    linarith
  refine ⟨hpass, ?_, ?_⟩
  · rcases lt_or_le self.averagePeriod 0 with hav | hav
    · rw [updatePeriod_of_pass_second _ _ _ _ _ _ hts hpass hav]
    · rw [updatePeriod_of_pass_steady _ _ _ _ _ _ hts hpass hav]
  · intro hle
    rcases lt_or_le self.averagePeriod 0 with hav | hav
    · rw [updatePeriod_of_pass_second _ _ _ _ _ _ hts hpass hav]
      have h0 : 0 ≤ currentTime - self.timeStamp := sub_nonneg.mpr hle
      exact ⟨h0, hsent _ h0⟩
    · rw [updatePeriod_of_pass_steady _ _ _ _ _ _ hts hpass hav]
      have h0 : 0 ≤ (currentTime - self.timeStamp) * 0.125 +
          self.averagePeriod * 0.875 := by
        have hc : 0 ≤ currentTime - self.timeStamp := sub_nonneg.mpr hle
        norm_num
        nlinarith
      exact ⟨h0, hsent _ h0⟩

/-- C14 (witness).  Entry created by a first beacon (number 5, time 100), next
beacon number 9 (four ahead) at time 110. -/
theorem updatePeriod_legitimate_beacon_witness :
    (100 : epicsTime) ≠ epicsTime.zero ∧
    (CA_V410 13 = true ∧ 9 < 2 ^ 32 ∧ 9 > 5 ∧ 4 ≤ 9 - 5 ∧ 9 - 5 ≤ 2 ^ 32 - 257) ∧
    (bhe.updatePeriod CA_V410
        { addr := 0, timeStamp := 100, averagePeriod := - DBL_MAX, pIIU := none,
          lastBeaconNumber := 5 } 0 110 9 13).entry.timeStamp = 110 ∧
    (bhe.updatePeriod CA_V410
        { addr := 0, timeStamp := 100, averagePeriod := - DBL_MAX, pIIU := none,
          lastBeaconNumber := 5 } 0 110 9 13).entry.averagePeriod ≠ - DBL_MAX :=
  have h := updatePeriod_legitimate_beacon CA_V410
      { addr := 0, timeStamp := 100, averagePeriod := - DBL_MAX, pIIU := none,
        lastBeaconNumber := 5 } 0 110 9 13
      (by norm_num [epicsTime.zero])
      (Or.inr ⟨by decide, by norm_num, by norm_num, Or.inr ⟨by norm_num, by norm_num⟩⟩)
  ⟨by norm_num [epicsTime.zero],
    ⟨by decide, by norm_num, by norm_num, by norm_num, by norm_num⟩,
    h.2.1, (h.2.2 (by norm_num)).2⟩

/-- C15.  For every initial time stamp, initial beacon number and address, the
constructed entry has that `timeStamp` (returned by `updateTime ()`), that
`lastBeaconNumber`, that address, a null `pIIU`, and `averagePeriod` equal to
`- DBL_MAX` (returned by `period ()`), which is negative and not zero. -/
theorem mk0_initial_state (initialTimeStamp : epicsTime) (initialBeaconNumber : Nat)
    (addr : inetAddrID) :
    (bhe.mk0 initialTimeStamp initialBeaconNumber addr).timeStamp = initialTimeStamp ∧
    (bhe.mk0 initialTimeStamp initialBeaconNumber addr).updateTime = initialTimeStamp ∧
    (bhe.mk0 initialTimeStamp initialBeaconNumber addr).lastBeaconNumber =
      initialBeaconNumber ∧
    (bhe.mk0 initialTimeStamp initialBeaconNumber addr).addr = addr ∧
    (bhe.mk0 initialTimeStamp initialBeaconNumber addr).pIIU = none ∧
    (bhe.mk0 initialTimeStamp initialBeaconNumber addr).averagePeriod = - DBL_MAX ∧
    (bhe.mk0 initialTimeStamp initialBeaconNumber addr).period = - DBL_MAX ∧
    (bhe.mk0 initialTimeStamp initialBeaconNumber addr).averagePeriod < 0 ∧
    (bhe.mk0 initialTimeStamp initialBeaconNumber addr).averagePeriod ≠ 0 := by
  have hneg : (- DBL_MAX : ℚ) < 0 := neg_lt_zero.mpr DBL_MAX_pos
  exact ⟨rfl, rfl, rfl, rfl, rfl, rfl, rfl, hneg, hneg.ne⟩

/-! ## The value of `averagePeriod` over any sequence of calls -/

/-- One `updatePeriod` call with an arrival time later than the stored
`timeStamp` keeps `averagePeriod` either at `- DBL_MAX` or positive. -/
theorem updatePeriod_sentinel_or_positive (CA_V410 : Nat → Bool) (self : bhe)
    (programBeginTime currentTime : epicsTime) (beaconNumber protocolRevision : Nat)
    (hinv : self.averagePeriod = - DBL_MAX ∨ 0 < self.averagePeriod)
    (hlater : self.timeStamp < currentTime) :
    (self.updatePeriod CA_V410 programBeginTime currentTime beaconNumber
        protocolRevision).entry.averagePeriod = - DBL_MAX ∨
    0 < (self.updatePeriod CA_V410 programBeginTime currentTime beaconNumber
        protocolRevision).entry.averagePeriod := by
  have hc : 0 < currentTime - self.timeStamp := sub_pos.mpr hlater
  by_cases hz : self.timeStamp = epicsTime.zero
  · rw [updatePeriod_of_zero_timeStamp _ _ _ _ _ _ hz]
    exact hinv
  · by_cases hd : self.discardsBeacon CA_V410 beaconNumber protocolRevision
    · rw [updatePeriod_of_discard _ _ _ _ _ _ hz hd]
      exact hinv
    · rcases lt_or_le self.averagePeriod 0 with hav | hav
      · rw [updatePeriod_of_pass_second _ _ _ _ _ _ hz hd hav]
        exact Or.inr hc
      · rw [updatePeriod_of_pass_steady _ _ _ _ _ _ hz hd hav]
        refine Or.inr ?_
        show 0 < (currentTime - self.timeStamp) * 0.125 + self.averagePeriod * 0.875
        norm_num
        nlinarith

/-- Every single call keeps `averagePeriod` either at `- DBL_MAX` or
positive, when a beacon arrives later than the stored `timeStamp`. -/
theorem call_sentinel_or_positive (CA_V410 : Nat → Bool) (self : bhe) (c : Call)
    (hinv : self.averagePeriod = - DBL_MAX ∨ 0 < self.averagePeriod)
    (hlater : ∀ programBeginTime currentTime beaconNumber protocolRevision,
      c = Call.updatePeriod programBeginTime currentTime beaconNumber protocolRevision →
      self.timeStamp < currentTime) :
    (self.call CA_V410 c).averagePeriod = - DBL_MAX ∨
      0 < (self.call CA_V410 c).averagePeriod := by
  cases c with
  | updatePeriod programBeginTime currentTime beaconNumber protocolRevision =>
    exact updatePeriod_sentinel_or_positive _ _ _ _ _ _ hinv (hlater _ _ _ _ rfl)
  | registerIIU iiu currentTime => exact Or.inl rfl
  | unregisterIIU iiu =>
    show (self.unregisterIIU iiu).averagePeriod = - DBL_MAX ∨
      0 < (self.unregisterIIU iiu).averagePeriod
    unfold bhe.unregisterIIU
    by_cases h : self.pIIU = some iiu
    · rw [if_pos h]
      exact Or.inl rfl
    · rw [if_neg h]
      exact hinv

/-- Any sequence of calls whose beacons arrive later than the stored
`timeStamp` keeps `averagePeriod` either at `- DBL_MAX` or positive. -/
theorem calls_sentinel_or_positive (CA_V410 : Nat → Bool) (cs : List Call) :
    ∀ self : bhe, (self.averagePeriod = - DBL_MAX ∨ 0 < self.averagePeriod) →
      self.beaconsArriveLater CA_V410 cs = true →
      ((self.calls CA_V410 cs).averagePeriod = - DBL_MAX ∨
        0 < (self.calls CA_V410 cs).averagePeriod) := by
  induction cs with
  | nil =>
    intro self hinv _
    exact hinv
  | cons c rest ih =>
    intro self hinv hlater
    have hsplit : (∀ programBeginTime currentTime beaconNumber protocolRevision,
          c = Call.updatePeriod programBeginTime currentTime beaconNumber
            protocolRevision → self.timeStamp < currentTime) ∧
        (self.call CA_V410 c).beaconsArriveLater CA_V410 rest = true := by
      cases c with
      | updatePeriod programBeginTime currentTime beaconNumber protocolRevision =>
        simp only [bhe.beaconsArriveLater, Bool.and_eq_true, decide_eq_true_eq] at hlater
        refine ⟨?_, hlater.2⟩
        intro p t b r hc
        injection hc with _ ht _ _
        rw [← ht]
        exact hlater.1
      | registerIIU iiu currentTime =>
        simp only [bhe.beaconsArriveLater, Bool.true_and] at hlater
        exact ⟨fun _ _ _ _ hc => Call.noConfusion hc, hlater⟩
      | unregisterIIU iiu =>
        simp only [bhe.beaconsArriveLater, Bool.true_and] at hlater
        exact ⟨fun _ _ _ _ hc => Call.noConfusion hc, hlater⟩
    rw [bhe.calls]
    exact ih _ (call_sentinel_or_positive _ _ _ hinv hsplit.1) hsplit.2

/-- C16.  Starting from a newly constructed entry, after any sequence of
`updatePeriod`, `registerIIU` and `unregisterIIU` calls in which every beacon
arrives strictly later than the `timeStamp` stored when the call is made,
`averagePeriod` is either `- DBL_MAX` or strictly positive; hence the test
`averagePeriod < 0.0` holds exactly when `averagePeriod` is `- DBL_MAX`. -/
theorem averagePeriod_sentinel_or_positive (CA_V410 : Nat → Bool)
    (initialTimeStamp : epicsTime) (initialBeaconNumber : Nat) (addr : inetAddrID)
    (cs : List Call)
    (hlater : (bhe.mk0 initialTimeStamp initialBeaconNumber addr).beaconsArriveLater
      CA_V410 cs = true) :
    (((bhe.mk0 initialTimeStamp initialBeaconNumber addr).calls CA_V410
          cs).averagePeriod = - DBL_MAX ∨
      0 < ((bhe.mk0 initialTimeStamp initialBeaconNumber addr).calls CA_V410
          cs).averagePeriod) ∧
    (((bhe.mk0 initialTimeStamp initialBeaconNumber addr).calls CA_V410
          cs).averagePeriod < 0.0 ↔
      ((bhe.mk0 initialTimeStamp initialBeaconNumber addr).calls CA_V410
          cs).averagePeriod = - DBL_MAX) := by
  have h := calls_sentinel_or_positive CA_V410 cs
    (bhe.mk0 initialTimeStamp initialBeaconNumber addr) (Or.inl rfl) hlater
  refine ⟨h, ?_⟩
  have hpos := DBL_MAX_pos
  constructor
  · intro hneg
    rcases h with h | h
    · exact h
    · norm_num at hneg
      linarith
  · intro heq
    rw [heq]
    norm_num
    exact hpos

/-- C16 (witness).  Entry created by a beacon at time 100, a second beacon at
110, a circuit attached at 112 and detached again, then beacons at 120 and
131: the average period ends at `- DBL_MAX` or positive. -/
theorem averagePeriod_sentinel_or_positive_witness :
    (bhe.mk0 100 5 0).beaconsArriveLater CA_V410
        [Call.updatePeriod 0 110 6 13, Call.registerIIU 1 112,
          Call.updatePeriod 0 120 7 13, Call.updatePeriod 0 131 8 13,
          Call.unregisterIIU 1, Call.updatePeriod 0 140 9 13] = true ∧
    (((bhe.mk0 100 5 0).calls CA_V410
        [Call.updatePeriod 0 110 6 13, Call.registerIIU 1 112,
          Call.updatePeriod 0 120 7 13, Call.updatePeriod 0 131 8 13,
          Call.unregisterIIU 1, Call.updatePeriod 0 140 9 13]).averagePeriod =
        - DBL_MAX ∨
      0 < ((bhe.mk0 100 5 0).calls CA_V410
        [Call.updatePeriod 0 110 6 13, Call.registerIIU 1 112,
          Call.updatePeriod 0 120 7 13, Call.updatePeriod 0 131 8 13,
          Call.unregisterIIU 1, Call.updatePeriod 0 140 9 13]).averagePeriod) :=
  ⟨by decide!,
    (averagePeriod_sentinel_or_positive CA_V410 100 5 0
      [Call.updatePeriod 0 110 6 13, Call.registerIIU 1 112,
        Call.updatePeriod 0 120 7 13, Call.updatePeriod 0 131 8 13,
        Call.unregisterIIU 1, Call.updatePeriod 0 140 9 13] (by decide!)).1⟩

/-! ## Notifications and the verdict -/

/-- C17.  Every `updatePeriod` call makes at most one call on the attached
circuit (anomaly and arrival notifications counted together) and leaves `pIIU`
as it was; it makes exactly one exactly when a circuit is attached and the call
does not return through the sequence number tests, and none when no circuit is
attached. -/
theorem updatePeriod_notification_count (CA_V410 : Nat → Bool) (self : bhe)
    (programBeginTime currentTime : epicsTime) (beaconNumber protocolRevision : Nat) :
    (self.updatePeriod CA_V410 programBeginTime currentTime beaconNumber
        protocolRevision).delivered.length ≤ 1 ∧
    (self.updatePeriod CA_V410 programBeginTime currentTime beaconNumber
        protocolRevision).entry.pIIU = self.pIIU ∧
    ((self.updatePeriod CA_V410 programBeginTime currentTime beaconNumber
        protocolRevision).delivered.length = 1 ↔
      (self.pIIU ≠ none ∧
        ¬ (self.timeStamp ≠ epicsTime.zero ∧
          self.discardsBeacon CA_V410 beaconNumber protocolRevision))) ∧
    (self.pIIU = none →
      (self.updatePeriod CA_V410 programBeginTime currentTime beaconNumber
        protocolRevision).delivered = []) := by
  by_cases hz : self.timeStamp = epicsTime.zero
  · rw [updatePeriod_of_zero_timeStamp _ _ _ _ _ _ hz]
    cases hp : self.pIIU <;> simp [bhe.beaconAnomalyNotify, hp, hz]
  · by_cases hd : self.discardsBeacon CA_V410 beaconNumber protocolRevision
    · rw [updatePeriod_of_discard _ _ _ _ _ _ hz hd]
      simp [hz, hd]
    · rcases lt_or_le self.averagePeriod 0 with hav | hav
      · rw [updatePeriod_of_pass_second _ _ _ _ _ _ hz hd hav]
        cases hp : self.pIIU <;> simp [bhe.beaconAnomalyNotify, hp, hz, hd]
      · rw [updatePeriod_of_pass_steady _ _ _ _ _ _ hz hd hav]
        cases hp : self.pIIU
        · simp [bhe.beaconAnomalyNotify, hp]
        · simp only [bhe.beaconAnomalyNotify, hp, hz, hd]
          by_cases hband : currentTime - self.timeStamp ≥ self.averagePeriod * 1.25 ∨
              currentTime - self.timeStamp ≤ self.averagePeriod * 0.80
          · rw [if_pos hband]
            simp
          · rw [if_neg hband]
            simp

/-- C17 (witness).  An entry without a circuit in steady state: nothing is
delivered. -/
theorem updatePeriod_notification_count_witness :
    (none : Option tcpiiu) = none ∧
    (bhe.updatePeriod CA_V410
        { addr := 0, timeStamp := 100, averagePeriod := 10, pIIU := none,
          lastBeaconNumber := 5 } 0 110 6 13).delivered = [] :=
  ⟨rfl, (updatePeriod_notification_count CA_V410
      { addr := 0, timeStamp := 100, averagePeriod := 10, pIIU := none,
        lastBeaconNumber := 5 } 0 110 6 13).2.2.2 rfl⟩

/-- C18.  For every entry and every input: when `updatePeriod` returns true,
the same call invoked `bhe::beaconAnomalyNotify` once, which reached the
attached circuit when there is one, and made no `beaconArrivalNotify` call.
Put the other way round, a call that makes a `beaconArrivalNotify` call, that
returns through the sequence number tests, or that handles a first sighting
(zero `timeStamp`) returns false. -/
theorem updatePeriod_netChange_with_anomaly (CA_V410 : Nat → Bool) (self : bhe)
    (programBeginTime currentTime : epicsTime) (beaconNumber protocolRevision : Nat) :
    ((self.updatePeriod CA_V410 programBeginTime currentTime beaconNumber
        protocolRevision).netChange = true →
      (self.updatePeriod CA_V410 programBeginTime currentTime beaconNumber
          protocolRevision).anomalyCalls = 1 ∧
      (self.updatePeriod CA_V410 programBeginTime currentTime beaconNumber
          protocolRevision).delivered = self.beaconAnomalyNotify ∧
      ∀ iiu, Notification.beaconArrivalNotify iiu ∉
        (self.updatePeriod CA_V410 programBeginTime currentTime beaconNumber
          protocolRevision).delivered) ∧
    ((∃ iiu, Notification.beaconArrivalNotify iiu ∈
        (self.updatePeriod CA_V410 programBeginTime currentTime beaconNumber
          protocolRevision).delivered) →
      (self.updatePeriod CA_V410 programBeginTime currentTime beaconNumber
          protocolRevision).netChange = false) ∧
    ((self.timeStamp ≠ epicsTime.zero ∧
        self.discardsBeacon CA_V410 beaconNumber protocolRevision) →
      (self.updatePeriod CA_V410 programBeginTime currentTime beaconNumber
          protocolRevision).netChange = false) ∧
    (self.timeStamp = epicsTime.zero →
      (self.updatePeriod CA_V410 programBeginTime currentTime beaconNumber
          protocolRevision).netChange = false) := by
  have hnotify : ∀ iiu, Notification.beaconArrivalNotify iiu ∉ self.beaconAnomalyNotify := by
    intro iiu
    unfold bhe.beaconAnomalyNotify
    cases self.pIIU <;> simp
  by_cases hz : self.timeStamp = epicsTime.zero
  · rw [updatePeriod_of_zero_timeStamp _ _ _ _ _ _ hz]
    simp
  · by_cases hd : self.discardsBeacon CA_V410 beaconNumber protocolRevision
    · rw [updatePeriod_of_discard _ _ _ _ _ _ hz hd]
      simp
    · rcases lt_or_le self.averagePeriod 0 with hav | hav
      · rw [updatePeriod_of_pass_second _ _ _ _ _ _ hz hd hav]
        refine ⟨fun _ => ⟨rfl, rfl, hnotify⟩, ?_, fun h => absurd h.2 hd,
          fun h => absurd h hz⟩
        rintro ⟨iiu, hmem⟩
        exact absurd hmem (hnotify iiu)
      · rw [updatePeriod_of_pass_steady _ _ _ _ _ _ hz hd hav]
        refine ⟨?_, ?_, fun h => absurd h.2 hd, fun h => absurd h hz⟩
        · intro hnet
          by_cases hband : currentTime - self.timeStamp ≥ self.averagePeriod * 1.25 ∨
              currentTime - self.timeStamp ≤ self.averagePeriod * 0.80
          · simp only [if_pos hband]
            exact ⟨trivial, trivial, hnotify⟩
          · exfalso
            have h1 : ¬ currentTime - self.timeStamp ≥ self.averagePeriod * 1.25 :=
              fun h => hband (Or.inl h)
            have h2 : ¬ currentTime - self.timeStamp ≤ self.averagePeriod * 0.80 :=
              fun h => hband (Or.inr h)
            simp only [if_neg h1, decide_eq_true_eq] at hnet
            exact h2 hnet
        · rintro ⟨iiu, hmem⟩
          by_cases hband : currentTime - self.timeStamp ≥ self.averagePeriod * 1.25 ∨
              currentTime - self.timeStamp ≤ self.averagePeriod * 0.80
          · simp only [if_pos hband] at hmem
            exact absurd hmem (hnotify iiu)
          · have h1 : ¬ currentTime - self.timeStamp ≥ self.averagePeriod * 1.25 :=
              fun h => hband (Or.inl h)
            have h2 : ¬ currentTime - self.timeStamp ≤ self.averagePeriod * 0.80 :=
              fun h => hband (Or.inr h)
            simp only [if_neg h1, decide_eq_false_iff_not]
            exact h2

/-- C18 (witness).  A steady-state entry (average period 10) attached to
circuit 1 meets a beacon 40 seconds after the last one: the call returns true
and delivers the anomaly notification. -/
theorem updatePeriod_netChange_with_anomaly_witness :
    (bhe.updatePeriod CA_V410
        { addr := 0, timeStamp := 100, averagePeriod := 10, pIIU := some 1,
          lastBeaconNumber := 5 } 0 140 6 13).netChange = true ∧
    (bhe.updatePeriod CA_V410
        { addr := 0, timeStamp := 100, averagePeriod := 10, pIIU := some 1,
          lastBeaconNumber := 5 } 0 140 6 13).anomalyCalls = 1 ∧
    (bhe.updatePeriod CA_V410
        { addr := 0, timeStamp := 100, averagePeriod := 10, pIIU := some 1,
          lastBeaconNumber := 5 } 0 140 6 13).delivered =
      [Notification.beaconAnomalyNotify 1] :=
  have hnet : (bhe.updatePeriod CA_V410
      { addr := 0, timeStamp := 100, averagePeriod := 10, pIIU := some 1,
        lastBeaconNumber := 5 } 0 140 6 13).netChange = true := by decide!
  have h := (updatePeriod_netChange_with_anomaly CA_V410
      { addr := 0, timeStamp := 100, averagePeriod := 10, pIIU := some 1,
        lastBeaconNumber := 5 } 0 140 6 13).1 hnet
  ⟨hnet, h.1, h.2.1⟩

end CA
